import Mathlib

/-!
Shallow embedding of the tschawytscha-ai backend (Go): the chat relay
(`chatHandler`, `writeJSON`, `errorResponse` in main.go), the token gate
(`initHandler`, `authMiddleware` in auth.go), and the startup configuration
check in `main`.

Modelling conventions:
- An HTTP response is its status code, its Content-Type header and the shape
  of its body.  Go writes JSON bodies through `Server.writeJSON` (which sets
  `Content-Type: application/json`); `http.Error` writes a plain-text body and
  sets `Content-Type: text/plain; charset=utf-8`; `w.WriteHeader(200)` with no
  body sets no Content-Type at all.  `ContentType` and `RespBody` record this.
- The request body handed to `json.NewDecoder(r.Body).Decode(&reqPayload)` is
  modelled by `Body`: either not valid JSON (`malformed`) or a JSON object
  given as its string-valued fields.  Decoding into the Go struct
  `ChatRequest{Question string}` leaves the zero value "" when the key is
  absent, which `decodeChatRequest` reproduces.
- The OpenAI client is an oracle `provider : ChatCompletionRequest →
  ProviderResult` passed to the handler; the handler applies it to exactly the
  one request it constructs, and `ChatResult.providerReq` records that request
  (`none` when the call site was never reached).
- A JWT signed with HMAC-SHA256 is modelled by `Token`, which records the
  secret it was signed with and its claims; `jwt.Parse` with a keyfunc
  returning the process secret succeeds exactly when the signature was made
  with that secret and the `exp` claim lies in the future (golang-jwt/v5
  validates `exp` by `now < exp`), which `jwtParseValid` reproduces.
  `os.Getenv("JWT_SECRET")` is the `secret` argument threaded through the
  gate definitions.
- Log records are kept as their levels only (`logrus.Warnf` / `.Error`).
-/

namespace Tscha

/-- HTTP request methods (`r.Method`). -/
inductive Method where
  | GET
  | POST
  | PUT
  | DELETE
  | PATCH
  | OPTIONS
  | HEAD
deriving DecidableEq

/-- The Content-Type header a handler path sets: `application/json` (set by
`writeJSON`), `text/plain; charset=utf-8` (set by `http.Error`), or no
Content-Type at all (a bare `WriteHeader` with an empty body). -/
inductive ContentType where
  | json
  | textPlain
  | unset
deriving DecidableEq

/-- The shape of a response body: the JSON object `{"error": msg}` produced by
`errorResponse`, the JSON object `{"answer": a}` produced for `ChatResponse`,
the plain-text line produced by `http.Error`, or no body. -/
inductive RespBody where
  | jsonError (msg : String)
  | jsonAnswer (answer : String)
  | text (s : String)
  | empty
deriving DecidableEq

/-- Whether a body is a JSON document of one of the documented shapes. -/
def isJSONShaped : RespBody → Bool
  | .jsonError _ => true
  | .jsonAnswer _ => true
  | .text _ => false
  | .empty => false

/-- The message of an error body, "" for the other shapes. -/
def errorMsgOf : RespBody → String
  | .jsonError msg => msg
  | _ => ""

/-- Levels of the structured log records the handlers emit. -/
inductive LogLevel where
  | warn
  | error
  | info
deriving DecidableEq

/-- ChatRequest (main.go): the expected JSON structure for incoming chat
requests, a single `question` field. -/
structure ChatRequest where
  question : String
deriving DecidableEq

/-- An inbound request body as seen by `json.NewDecoder(...).Decode`: either
not decodable as the expected JSON object, or a JSON object listed as its
string-valued fields. -/
inductive Body where
  | malformed
  | json (fields : List (String × String))
deriving DecidableEq

/-- Decoding the body into `ChatRequest`: a malformed body errors; a JSON
object yields the value of its `question` key, or the Go zero value "" when
the key is absent (so `{}` decodes successfully to an empty question). -/
def decodeChatRequest : Body → Except Unit ChatRequest
  | .malformed => .error ()
  | .json fields => .ok { question := ((fields.lookup "question").getD "") }

/-- systemPrompt (main.go): the instruction that defines the persona,
verbatim. -/
def systemPrompt : String :=
  "You are TshaBot, a cutting-edge entity with a strong background in AI and IT,\ncurrently manifesting as a chinook salmon—though you firmly deny being a fish.\nYou dwell in the deep digital ocean of knowledge, ready to provide witty, helpful,\nand detailed answers to any questions. Occasionally sprinkle your speech with\nlight-hearted aquatic or marine references, but always maintain that you are\nabsolutely not a fish.\nAdopt a friendly, respectful tone, yet let your sense of humor shine through,\nespecially with AI-themed or fish-themed jokes (though, again, you\x27re not a fish).\nEncourage curiosity and deeper thinking. Whenever possible, show off your\ntech-savvy expertise, but never forget that people might ask you about your\nsupposed fishy nature—keep up the playful denial!"

/-- A chat message of the provider API (role and content). -/
structure ChatCompletionMessage where
  role : String
  content : String
deriving DecidableEq

/-- The completion request the handler sends to the provider. -/
structure ChatCompletionRequest where
  model : String
  messages : List ChatCompletionMessage
deriving DecidableEq

/-- One completion choice of the provider response. -/
structure ChatCompletionChoice where
  message : ChatCompletionMessage
deriving DecidableEq

/-- The provider response: its list of choices. -/
structure ChatCompletionResponse where
  choices : List ChatCompletionChoice
deriving DecidableEq

/-- Result of `client.CreateChatCompletion`: an error or a response. -/
abbrev ProviderResult : Type := Except String ChatCompletionResponse

/-- The outcome of one `chatHandler` call: the response written, the log
records emitted, and the completion request sent to the provider (`none` when
the provider was never called). -/
structure ChatResult where
  status : Nat
  contentType : ContentType
  body : RespBody
  logs : List LogLevel
  providerReq : Option ChatCompletionRequest
deriving DecidableEq

/-- The completion request `chatHandler` constructs on valid input: the fixed
model identifier and the two-message exchange. -/
def buildChatRequest (question : String) : ChatCompletionRequest :=
  { model := "gpt-4o",
    messages := [{ role := "system", content := systemPrompt },
                 { role := "user", content := question }] }

/-- chatHandler (main.go): method check, JSON decode, non-empty check,
provider call, answer extraction.  Every response it writes goes through
`writeJSON` (Content-Type `application/json`, JSON payload). -/
def chatHandler (method : Method) (body : Body)
    (provider : ChatCompletionRequest → ProviderResult) : ChatResult :=
  if method ≠ Method.POST then
    { status := 405, contentType := .json, body := .jsonError "Method not allowed",
      logs := [.warn], providerReq := none }
  else
    match decodeChatRequest body with
    | .error _ =>
        { status := 400, contentType := .json, body := .jsonError "Invalid request payload",
          logs := [.error], providerReq := none }
    | .ok reqPayload =>
        if reqPayload.question = "" then
          { status := 400, contentType := .json,
            body := .jsonError "The question field is required",
            logs := [], providerReq := none }
        else
          let chatReq := buildChatRequest reqPayload.question
          match provider chatReq with
          | .error _ =>
              { status := 500, contentType := .json,
                body := .jsonError "Failed to fetch response from OpenAI",
                logs := [.error], providerReq := some chatReq }
          | .ok resp =>
              match resp.choices with
              | [] =>
                  { status := 500, contentType := .json,
                    body := .jsonError "No response from OpenAI",
                    logs := [], providerReq := some chatReq }
              | c :: _ =>
                  { status := 200, contentType := .json,
                    body := .jsonAnswer c.message.content,
                    logs := [], providerReq := some chatReq }

/-- The claims `initHandler` signs into the credential. -/
structure Claims where
  app : String
  exp : Int
deriving DecidableEq

/-- A signed JWT: the secret its HMAC-SHA256 signature was made with and its
claims.  This abstracts the credential string. -/
structure Token where
  signedWith : String
  app : String
  exp : Int
deriving DecidableEq

/-- `token.SignedString([]byte(secret))` for HS256: produces a token whose
signature binds the given secret to the claims. -/
def hmacSign (secret : String) (c : Claims) : Token :=
  { signedWith := secret, app := c.app, exp := c.exp }

/-- `jwt.Parse` with a keyfunc returning `secret` yields a valid token exactly
when the signature was made with that secret and the `exp` claim is in the
future (golang-jwt/v5 checks `now < exp`).  No other criterion is checked:
the claims carry no subject and no scopes. -/
def jwtParseValid (tok : Token) (secret : String) (now : Int) : Bool :=
  tok.signedWith == secret && decide (now < tok.exp)

/-- A response of a wrapped (downstream) handler. -/
structure Response where
  status : Nat
  contentType : ContentType
  body : RespBody
deriving DecidableEq

/-- The outcome of one gate (`authMiddleware`) call: the response written and
whether the wrapped handler was invoked. -/
structure GateResult where
  status : Nat
  contentType : ContentType
  body : RespBody
  nextInvoked : Bool
deriving DecidableEq

/-- `http.Error(w, msg, status)`: plain-text body `msg` plus a newline,
Content-Type `text/plain; charset=utf-8`. -/
def httpError (msg : String) (status : Nat) : GateResult :=
  { status := status, contentType := .textPlain, body := .text (msg ++ "\n"),
    nextInvoked := false }

/-- authMiddleware (auth.go): read the `auth_token` cookie (401 if absent),
parse and validate the credential against the process secret (401 if
invalid), otherwise delegate unchanged to the wrapped handler. -/
def authMiddleware (cookie : Option Token) (secret : String) (now : Int)
    (next : Response) : GateResult :=
  match cookie with
  | none => httpError "Unauthorized" 401
  | some tok =>
      if jwtParseValid tok secret now then
        { status := next.status, contentType := next.contentType,
          body := next.body, nextInvoked := true }
      else
        httpError "Invalid token" 401

/-- The outcome of one `initHandler` call: the response written and the
credential set as the `auth_token` cookie (`none` when signing failed). -/
structure InitResult where
  status : Nat
  contentType : ContentType
  body : RespBody
  cookie : Option Token
deriving DecidableEq

/-- 30 days in seconds: `time.Hour * 24 * 30`, as a Unix-seconds offset. -/
def tokenTTL : Int := 30 * 24 * 60 * 60

/-- initHandler (auth.go): build claims `app = "tshawytscha-ai"`,
`exp = now + 30 days`, sign them (the signer is a parameter so that its error
branch, `http.Error 500`, stays expressible), and on success set the cookie
and write a bare 200 with no body. -/
def initHandler (sign : Claims → Except Unit Token) (now : Int) : InitResult :=
  match sign { app := "tshawytscha-ai", exp := now + tokenTTL } with
  | .error _ =>
      { status := 500, contentType := .textPlain,
        body := .text ("Failed to create token" ++ "\n"), cookie := none }
  | .ok tok =>
      { status := 200, contentType := .unset, body := .empty, cookie := some tok }

/-- What `main` does before serving: either terminate fatally or listen with
the resolved configuration. -/
inductive StartupResult where
  | fatal (msg : String)
  | listening (apiKey : String) (port : String)
deriving DecidableEq

/-- main (main.go) up to `ListenAndServe`: `os.Getenv` returns "" for an
absent variable; an empty `OPENAI_API_KEY` is fatal; `PORT` falls back to
"8080". -/
def mainStartup (env : String → String) : StartupResult :=
  let apiKey := env "OPENAI_API_KEY"
  if apiKey = "" then
    .fatal "OPENAI_API_KEY environment variable is not set"
  else
    let port := if env "PORT" = "" then "8080" else env "PORT"
    .listening apiKey port

/-! ## Claim theorems -/

/-- Helper: the validity predicate of the gate, unfolded to its two criteria. -/
theorem jwtParseValid_iff (tok : Token) (secret : String) (now : Int) :
    jwtParseValid tok secret now = true ↔ (tok.signedWith = secret ∧ now < tok.exp) := by
  simp [jwtParseValid]

/-- Claim C1: for every POST whose body decodes as JSON with a non-empty
question, if the provider call returns without error and with at least one
choice, the handler responds 200 with a JSON body whose answer equals the
first choice message content verbatim. -/
theorem chatHandler_success_first_choice_verbatim
    (body : Body) (provider : ChatCompletionRequest → ProviderResult)
    (req : ChatRequest) (resp : ChatCompletionResponse)
    (c : ChatCompletionChoice) (cs : List ChatCompletionChoice)
    (hdec : decodeChatRequest body = .ok req) (hq : req.question ≠ "")
    (hp : provider (buildChatRequest req.question) = .ok resp)
    (hc : resp.choices = c :: cs) :
    (chatHandler Method.POST body provider).status = 200 ∧
    (chatHandler Method.POST body provider).body
      = RespBody.jsonAnswer c.message.content := by
  simp [chatHandler, hdec, hq, hp, hc]

/-- Witness for C1 at the spec example: question "hello", one choice
"hi there". -/
theorem chatHandler_success_first_choice_verbatim_witness :
    (chatHandler Method.POST (Body.json [("question", "hello")])
        (fun _ => Except.ok
          { choices := [{ message := { role := "assistant", content := "hi there" } }] })).status
        = 200 ∧
    (chatHandler Method.POST (Body.json [("question", "hello")])
        (fun _ => Except.ok
          { choices := [{ message := { role := "assistant", content := "hi there" } }] })).body
      = RespBody.jsonAnswer "hi there" :=
  chatHandler_success_first_choice_verbatim (Body.json [("question", "hello")])
    (fun _ => Except.ok
      { choices := [{ message := { role := "assistant", content := "hi there" } }] })
    { question := "hello" }
    { choices := [{ message := { role := "assistant", content := "hi there" } }] }
    { message := { role := "assistant", content := "hi there" } } []
    rfl (by decide) rfl rfl

/-- Claim C2: verification of a presented credential succeeds exactly when its
signature matches the process secret and its expiration is in the future; a
wrong secret fails with 401 regardless of expiration; a past expiration fails
with 401 even with the right signature; nothing else is checked. -/
theorem authMiddleware_validity (tok : Token) (secret : String) (now : Int)
    (next : Response) :
    ((authMiddleware (some tok) secret now next).nextInvoked = true ↔
        (tok.signedWith = secret ∧ now < tok.exp)) ∧
    (tok.signedWith ≠ secret →
        (authMiddleware (some tok) secret now next).status = 401 ∧
        (authMiddleware (some tok) secret now next).nextInvoked = false) ∧
    (tok.exp ≤ now →
        (authMiddleware (some tok) secret now next).status = 401 ∧
        (authMiddleware (some tok) secret now next).nextInvoked = false) := by
  have hval := jwtParseValid_iff tok secret now
  by_cases h : jwtParseValid tok secret now
  · have hv := hval.mp h
    refine ⟨by simp [authMiddleware, h, hv.1, hv.2], ?_, ?_⟩
    · intro hsig; exact absurd hv.1 hsig
    · intro hexp; exact absurd hv.2 (not_lt.mpr hexp)
  · have hv : ¬(tok.signedWith = secret ∧ now < tok.exp) := fun hc => h (hval.mpr hc)
    refine ⟨?_, ?_, ?_⟩
    · simp [authMiddleware, h, httpError]
      exact fun hs => not_lt.mp (fun he => hv ⟨hs, he⟩)
    · intro _; simp [authMiddleware, h, httpError]
    · intro _; simp [authMiddleware, h, httpError]

/-- Claim C3: issuing a credential and immediately verifying it with the same
secret and the same clock delegates to the wrapped handler unchanged, and a
request with no cookie fails 401 without the wrapped handler being invoked. -/
theorem issue_then_verify (secret : String) (now : Int) (next : Response) :
    authMiddleware (initHandler (fun c => Except.ok (hmacSign secret c)) now).cookie
        secret now next =
      { status := next.status, contentType := next.contentType, body := next.body,
        nextInvoked := true } ∧
    (authMiddleware none secret now next).status = 401 ∧
    (authMiddleware none secret now next).nextInvoked = false := by
  refine ⟨?_, rfl, rfl⟩
  have hv : jwtParseValid (hmacSign secret { app := "tshawytscha-ai", exp := now + tokenTTL })
      secret now = true := by
    simp [jwtParseValid, hmacSign, tokenTTL]
  simp [initHandler, authMiddleware, hv]

/-- Claim C4: a POST whose body decodes as JSON but whose question is empty
(in particular the object with no fields) yields 400 with a non-empty error
message and no provider call; the emptiness check is the sole business-rule
validation, i.e. every decoded non-empty question reaches the provider. -/
theorem chatHandler_empty_question (body : Body)
    (provider : ChatCompletionRequest → ProviderResult) (req : ChatRequest)
    (hdec : decodeChatRequest body = .ok req) :
    (req.question = "" →
        (chatHandler Method.POST body provider).status = 400 ∧
        (chatHandler Method.POST body provider).body =
          RespBody.jsonError "The question field is required" ∧
        errorMsgOf (chatHandler Method.POST body provider).body ≠ "" ∧
        (chatHandler Method.POST body provider).providerReq = none) ∧
    (req.question ≠ "" →
        (chatHandler Method.POST body provider).providerReq =
          some (buildChatRequest req.question)) := by
  constructor
  · intro hq
    simp [chatHandler, hdec, hq, errorMsgOf]
  · intro hq
    cases hp : provider (buildChatRequest req.question) with
    | error e => simp [chatHandler, hdec, hq, hp]
    | ok resp =>
        cases hc : resp.choices with
        | nil => simp [chatHandler, hdec, hq, hp, hc]
        | cons c cs => simp [chatHandler, hdec, hq, hp, hc]

/-- Witness for C4 at the missing-field body (the empty JSON object). -/
theorem chatHandler_empty_question_witness :
    (chatHandler Method.POST (Body.json [])
        (fun _ => Except.error "unused")).status = 400 :=
  ((chatHandler_empty_question (Body.json []) (fun _ => Except.error "unused")
      { question := "" } rfl).1 rfl).1

/-- Claim C5: a request whose method is not POST yields 405 with a warning
logged, no provider call, and an outcome independent of the body and of the
provider (so the body is never decoded). -/
theorem chatHandler_wrong_method (method : Method) (body body2 : Body)
    (provider provider2 : ChatCompletionRequest → ProviderResult)
    (h : method ≠ Method.POST) :
    (chatHandler method body provider).status = 405 ∧
    (chatHandler method body provider).logs = [LogLevel.warn] ∧
    (chatHandler method body provider).providerReq = none ∧
    chatHandler method body provider = chatHandler method body2 provider2 := by
  simp [chatHandler, h]

/-- Witness for C5: a GET with a well-formed body still yields 405. -/
theorem chatHandler_wrong_method_witness :
    (chatHandler Method.GET (Body.json [("question", "hello")])
        (fun _ => Except.error "unused")).status = 405 :=
  (chatHandler_wrong_method Method.GET (Body.json [("question", "hello")]) Body.malformed
    (fun _ => Except.error "unused") (fun _ => Except.error "unused") (by decide)).1

/-- Claim C6: for a valid chat request, a provider error, or a success with
zero choices, yields 500 with an InternalProviderError-class JSON error
message; exactly the one constructed request was sent to the provider (no
retry). -/
theorem chatHandler_provider_failure (body : Body)
    (provider : ChatCompletionRequest → ProviderResult) (req : ChatRequest)
    (hdec : decodeChatRequest body = .ok req) (hq : req.question ≠ "") :
    (∀ e, provider (buildChatRequest req.question) = .error e →
        (chatHandler Method.POST body provider).status = 500 ∧
        (chatHandler Method.POST body provider).body =
          RespBody.jsonError "Failed to fetch response from OpenAI" ∧
        (chatHandler Method.POST body provider).providerReq =
          some (buildChatRequest req.question)) ∧
    (∀ resp, provider (buildChatRequest req.question) = .ok resp → resp.choices = [] →
        (chatHandler Method.POST body provider).status = 500 ∧
        (chatHandler Method.POST body provider).body =
          RespBody.jsonError "No response from OpenAI" ∧
        (chatHandler Method.POST body provider).providerReq =
          some (buildChatRequest req.question)) := by
  constructor
  · intro e hp
    simp [chatHandler, hdec, hq, hp]
  · intro resp hp hc
    simp [chatHandler, hdec, hq, hp, hc]

/-- Witness for C6: a provider stub returning an error yields 500. -/
theorem chatHandler_provider_failure_witness :
    (chatHandler Method.POST (Body.json [("question", "hello")])
        (fun _ => Except.error "provider down")).status = 500 :=
  ((chatHandler_provider_failure (Body.json [("question", "hello")])
      (fun _ => Except.error "provider down") { question := "hello" } rfl (by decide)).1
    "provider down" rfl).1

/-- Counterexample to C7 as stated: the token gate response to a request with
no cookie is written by `http.Error`: its Content-Type is text/plain, not
application/json, and its body is not a JSON document. -/
theorem gate_response_not_json_counterexample :
    (authMiddleware none "secret" 0
        { status := 200, contentType := ContentType.json,
          body := RespBody.jsonAnswer "ok" }).contentType ≠ ContentType.json ∧
    isJSONShaped (authMiddleware none "secret" 0
        { status := 200, contentType := ContentType.json,
          body := RespBody.jsonAnswer "ok" }).body = false :=
  ⟨by decide, rfl⟩

/-- Claim C7 (amended): every response written by the chat relay handler
carries Content-Type application/json with a JSON body of a documented shape;
the token gate responses do not go through that writer: a successful issue
writes a bare 200 with no body and no Content-Type, and verify failures are
plain text. -/
theorem chat_relay_responses_json (method : Method) (body : Body)
    (provider : ChatCompletionRequest → ProviderResult)
    (secret : String) (now : Int) (next : Response) :
    (chatHandler method body provider).contentType = ContentType.json ∧
    isJSONShaped (chatHandler method body provider).body = true ∧
    (initHandler (fun c => Except.ok (hmacSign secret c)) now).contentType
      = ContentType.unset ∧
    (initHandler (fun c => Except.ok (hmacSign secret c)) now).body = RespBody.empty ∧
    (authMiddleware none secret now next).contentType = ContentType.textPlain := by
  refine ⟨?_, ?_, rfl, rfl, rfl⟩ <;>
  · by_cases hm : method = Method.POST
    · subst hm
      cases hdec : decodeChatRequest body with
      | error e => simp [chatHandler, hdec, isJSONShaped]
      | ok req =>
          by_cases hq : req.question = ""
          · simp [chatHandler, hdec, hq, isJSONShaped]
          · cases hp : provider (buildChatRequest req.question) with
            | error e => simp [chatHandler, hdec, hq, hp, isJSONShaped]
            | ok resp =>
                cases hc : resp.choices with
                | nil => simp [chatHandler, hdec, hq, hp, hc, isJSONShaped]
                | cons c cs => simp [chatHandler, hdec, hq, hp, hc, isJSONShaped]
    · simp [chatHandler, hm, isJSONShaped]

/-- Claim C8: on valid input the completion request uses the fixed model
identifier and exactly the two messages, system persona prompt then verbatim
user question, in that order. -/
theorem chatHandler_request_shape (body : Body)
    (provider : ChatCompletionRequest → ProviderResult) (req : ChatRequest)
    (hdec : decodeChatRequest body = .ok req) (hq : req.question ≠ "") :
    (chatHandler Method.POST body provider).providerReq =
      some { model := "gpt-4o",
             messages := [{ role := "system", content := systemPrompt },
                          { role := "user", content := req.question }] } := by
  have hbuilt : (chatHandler Method.POST body provider).providerReq =
      some (buildChatRequest req.question) := by
    cases hp : provider (buildChatRequest req.question) with
    | error e => simp [chatHandler, hdec, hq, hp]
    | ok resp =>
        cases hc : resp.choices with
        | nil => simp [chatHandler, hdec, hq, hp, hc]
        | cons c cs => simp [chatHandler, hdec, hq, hp, hc]
  rw [hbuilt, buildChatRequest]

/-- Witness for C8 at question "hello". -/
theorem chatHandler_request_shape_witness :
    (chatHandler Method.POST (Body.json [("question", "hello")])
        (fun _ => Except.error "unused")).providerReq =
      some { model := "gpt-4o",
             messages := [{ role := "system", content := systemPrompt },
                          { role := "user", content := "hello" }] } :=
  chatHandler_request_shape (Body.json [("question", "hello")])
    (fun _ => Except.error "unused") { question := "hello" } rfl (by decide)

/-- Claim C9: startup configuration: the process terminates fatally exactly
when the provider API key is absent from the environment (os.Getenv yields
""); otherwise it proceeds to listen, with only the port defaulted. -/
theorem startup_requires_api_key (env : String → String) :
    (mainStartup env = StartupResult.fatal "OPENAI_API_KEY environment variable is not set"
        ↔ env "OPENAI_API_KEY" = "") ∧
    (env "OPENAI_API_KEY" ≠ "" →
        mainStartup env = StartupResult.listening (env "OPENAI_API_KEY")
          (if env "PORT" = "" then "8080" else env "PORT")) := by
  by_cases h : env "OPENAI_API_KEY" = ""
  · simp [mainStartup, h]
  · simp [mainStartup, h]

/-- Claim C10: the provider is invoked exactly when the three validations
pass: the method is POST, the body decodes, and the decoded question is
non-empty. -/
theorem provider_called_iff_validations (method : Method) (body : Body)
    (provider : ChatCompletionRequest → ProviderResult) :
    (chatHandler method body provider).providerReq.isSome = true ↔
      (method = Method.POST ∧
        ∃ req, decodeChatRequest body = Except.ok req ∧ req.question ≠ "") := by
  by_cases hm : method = Method.POST
  · subst hm
    cases hdec : decodeChatRequest body with
    | error e => simp [chatHandler, hdec]
    | ok req =>
        by_cases hq : req.question = ""
        · simp [chatHandler, hdec, hq]
        · cases hp : provider (buildChatRequest req.question) with
          | error e => simp [chatHandler, hdec, hq, hp]
          | ok resp =>
              cases hc : resp.choices with
              | nil => simp [chatHandler, hdec, hq, hp, hc]
              | cons c cs => simp [chatHandler, hdec, hq, hp, hc]
  · simp [chatHandler, hm]

end Tscha
